import Mathlib

/-!
Verification of the service lifecycle and orchestration core of the
executive-safety-dashboard analytics service, embedded shallowly from
`src/analytics/main.py` and `src/analytics/health_check.py`.

Exceptions are modelled with `Except`; the behaviour of each external
dependency call (database ping, redis ping, disconnects, HTTP request)
is an explicit parameter, so every theorem quantifies over all
dependency behaviours.
-/

namespace Dashboard

/-- Outcome of one awaited dependency call that returns a boolean:
either it returns a value, or it raises an exception. -/
inductive Outcome where
  | ret : Bool → Outcome
  | raise : Outcome
deriving DecidableEq, Repr

/-- The module-level global state read by the `/health` endpoint in
`main.py`: the `db` and `redis_client` handles (each possibly `None`,
each with the behaviour its ping will have on this query), and whether
the three service globals have been assigned. -/
structure HealthEnv where
  db : Option Outcome
  redisClient : Option Outcome
  analyticsService : Bool
  predictionService : Bool
  reportService : Bool
deriving DecidableEq, Repr

/-- The `HealthResponse` pydantic model of `main.py` (lines 73-78),
restricted to the fields the claims talk about: `status` and the
per-service `services` mapping.  `uptime` is the constant `0.0` and
`version` the constant string in the source. -/
structure HealthResponse where
  status : String
  version : String
  services : List (String × String)
deriving DecidableEq, Repr

/-- Body of `health_check` (main.py lines 188-212), inside the outer
`try`: computes `db_status` (the `await db.health_check()` may raise,
which propagates), computes `redis_status` under its own bare
`except:` (a redis ping exception is swallowed into "disconnected"),
and builds the `HealthResponse`.  An escaping exception is
`Except.error`. -/
def health_check_body (env : HealthEnv) : Except Unit HealthResponse :=
  match env.db with
  | some Outcome.raise => Except.error ()
  | _ =>
    let db_status : String :=
      match env.db with
      | some (Outcome.ret true) => "connected"
      | _ => "disconnected"
    let redis_status : String :=
      match env.redisClient with
      | some Outcome.raise => "disconnected"
      | _ => "connected"
    Except.ok
      { status :=
          if db_status = "connected" ∧ redis_status = "connected" then "healthy"
          else "unhealthy"
        version := "1.0.0"
        services :=
          [("database", db_status),
           ("redis", redis_status),
           ("analytics", if env.analyticsService then "available" else "unavailable"),
           ("prediction", if env.predictionService then "available" else "unavailable"),
           ("reporting", if env.reportService then "available" else "unavailable")] }

/-- The full `health_check` endpoint (main.py lines 185-221): the body
runs inside a `try`, and the outer `except Exception` returns the
fallback unhealthy response with an empty `services` mapping.  The
result type is still `Except` so that "the endpoint raises" is
representable; the endpoint itself never produces `Except.error`. -/
def health_check (env : HealthEnv) : Except Unit HealthResponse :=
  match health_check_body env with
  | Except.ok r => Except.ok r
  | Except.error _ =>
      Except.ok { status := "unhealthy", version := "1.0.0", services := [] }

/-- The response the endpoint actually returns (total, by claim C2). -/
def health_response (env : HealthEnv) : HealthResponse :=
  match health_check env with
  | Except.ok r => r
  | Except.error _ => { status := "unhealthy", version := "1.0.0", services := [] }

/-- The database ping errors on this query. -/
abbrev dbPingRaises (env : HealthEnv) : Prop := env.db = some Outcome.raise

/-- The redis ping errors on this query. -/
abbrev redisPingRaises (env : HealthEnv) : Prop := env.redisClient = some Outcome.raise

deriving instance DecidableEq for Except

deriving instance Fintype for Outcome

deriving instance Fintype for HealthEnv

/-- An environment where the database ping raises and the redis ping
succeeds; used to exercise the outer `except Exception` path. -/
def envDbRaise : HealthEnv :=
  { db := some Outcome.raise
    redisClient := some (Outcome.ret true)
    analyticsService := true
    predictionService := true
    reportService := true }

end Dashboard


namespace Dashboard

set_option maxRecDepth 32768

/-- C2: The health-check operation never raises to its caller: for every
behaviour of the dependency pings (success, failure, or exception), it
returns a structured `HealthResponse` rather than propagating an
exception. -/
theorem health_check_never_raises :
    ∀ env : HealthEnv, health_check env = Except.ok (health_response env) := by
  decide

/-- C1 counterexample: when the database ping raises, the database is
not reported "disconnected" under its own name — the returned mapping
is empty (the overall status is still "unhealthy"), so the claim as
stated is false. -/
theorem health_dep_error_report_counterexample :
    dbPingRaises envDbRaise ∧
    ¬ ((health_response envDbRaise).services.lookup "database" = some "disconnected") ∧
    (health_response envDbRaise).services = [] ∧
    (health_response envDbRaise).status = "unhealthy" := by
  decide

/-- C1 amended: a redis ping error (with the database ping not raising)
is reported as redis "disconnected" with overall "unhealthy"; a
database ping that completes unsuccessfully is reported as database
"disconnected" with overall "unhealthy"; but a database ping that
raises yields overall "unhealthy" with an empty per-dependency
mapping, the database not reported under its own name. -/
theorem health_dep_error_report_amended :
    ∀ env : HealthEnv,
      (¬ dbPingRaises env → redisPingRaises env →
        (health_response env).services.lookup "redis" = some "disconnected" ∧
        (health_response env).status = "unhealthy") ∧
      (env.db = some (Outcome.ret false) →
        (health_response env).services.lookup "database" = some "disconnected" ∧
        (health_response env).status = "unhealthy") ∧
      (dbPingRaises env →
        (health_response env).status = "unhealthy" ∧
        (health_response env).services = []) := by
  decide

/-- Witness for the amended C1 theorem at a concrete environment where
the redis ping raises and the database ping succeeds. -/
theorem health_dep_error_report_amended_witness :
    ¬ dbPingRaises ⟨some (Outcome.ret true), some Outcome.raise, true, true, true⟩ ∧
    redisPingRaises ⟨some (Outcome.ret true), some Outcome.raise, true, true, true⟩ ∧
    ((health_response ⟨some (Outcome.ret true), some Outcome.raise, true, true, true⟩).services.lookup
        "redis" = some "disconnected" ∧
      (health_response ⟨some (Outcome.ret true), some Outcome.raise, true, true, true⟩).status =
        "unhealthy") :=
  ⟨by decide, by decide,
    (health_dep_error_report_amended
        ⟨some (Outcome.ret true), some Outcome.raise, true, true, true⟩).1
      (by decide) (by decide)⟩

/-- C4: the returned overall status is "healthy" iff the database and
redis both report "connected" in the per-dependency mapping, and the
availability of the analytics, prediction, and report service objects
does not affect the overall status. -/
theorem health_overall_iff_required_deps :
    ∀ env : HealthEnv, ∀ a p r : Bool,
      ((health_response env).status = "healthy" ↔
        ((health_response env).services.lookup "database" = some "connected" ∧
         (health_response env).services.lookup "redis" = some "connected")) ∧
      (health_response
          { env with analyticsService := a, predictionService := p, reportService := r }).status =
        (health_response env).status := by
  decide

end Dashboard

namespace Dashboard

/-- Time one awaited call on an optional handle contributes: zero when
the handle is `None` (the call is skipped), its latency otherwise. -/
def awaitLat (handle : Option Outcome) (lat : Nat) : Nat :=
  match handle with
  | none => 0
  | some _ => lat

/-- Latency model of the `health_check` endpoint (main.py lines
188-198): the two pings are awaited sequentially — `await
db.health_check()`, then `await redis_client.ping()` — and neither is
wrapped in `asyncio.wait_for` or any other timeout.  `dbLat` and
`redisLat` are the durations the two pings take on this query; a
raising ping consumes its latency before raising, and a database ping
exception skips the redis ping (control jumps to the outer handler). -/
def health_check_latency (env : HealthEnv) (dbLat redisLat : Nat) : Nat :=
  match env.db with
  | some Outcome.raise => awaitLat env.db dbLat
  | _ => awaitLat env.db dbLat + awaitLat env.redisClient redisLat

/-- An environment where both handles are present and both pings
succeed. -/
def envBothOk : HealthEnv :=
  { db := some (Outcome.ret true)
    redisClient := some (Outcome.ret true)
    analyticsService := true
    predictionService := true
    reportService := true }

/-- C3 counterexample: with both dependencies present and each ping
taking 5 units, the health query takes 10 units — the sum of the
per-dependency latencies, not their maximum — so the claimed bound by
the maximum per-dependency time is false (the code configures no
per-dependency timeout at all). -/
theorem health_latency_counterexample :
    health_check_latency envBothOk 5 5 = 10 ∧ ¬ (10 ≤ Nat.max 5 5) := by
  decide

/-- C3 amended: the pings run sequentially with no timeout, so whenever
the database ping does not raise, the total latency is the sum of the
per-dependency latencies (a `None` handle contributing zero), and the
total latency is unbounded — for every bound there are dependency
latencies exceeding it, so a hanging dependency hangs the snapshot. -/
theorem health_latency_amended :
    (∀ env : HealthEnv, ∀ dbLat redisLat : Nat, ¬ dbPingRaises env →
      health_check_latency env dbLat redisLat =
        awaitLat env.db dbLat + awaitLat env.redisClient redisLat) ∧
    (∀ T : Nat, ∃ dbLat redisLat : Nat,
      health_check_latency envBothOk dbLat redisLat > T) := by
  constructor
  · intro env dbLat redisLat h
    rcases hdb : env.db with _ | o
    · simp [health_check_latency, hdb]
    · rcases o with b | _
      · simp [health_check_latency, hdb]
      · exact absurd hdb h
  · intro T
    refine ⟨T + 1, 0, ?_⟩
    simp [health_check_latency, envBothOk, awaitLat]

/-- Witness for the amended C3 theorem: at the environment with both
pings succeeding and latencies 5 and 7, the snapshot takes the sum. -/
theorem health_latency_amended_witness :
    ¬ dbPingRaises envBothOk ∧
    health_check_latency envBothOk 5 7 =
      awaitLat envBothOk.db 5 + awaitLat envBothOk.redisClient 7 :=
  ⟨by decide, health_latency_amended.1 envBothOk 5 7 (by decide)⟩

/-- Outcome of one awaited cleanup call: completes or raises. -/
inductive StepOutcome where
  | ok
  | raise
deriving DecidableEq, Repr

deriving instance Fintype for StepOutcome

/-- The shutdown half of `lifespan` (main.py lines 114-118): after the
`yield`, it runs `await redis_client.close()` and then `await
db.disconnect()`, with no try/except around either call.  The first
component lists the disconnect calls that were started, in order; the
second is `Except.error` when an exception escapes the shutdown
sequence. -/
def lifespan_shutdown (redisClose dbDisconnect : StepOutcome) :
    List String × Except Unit Unit :=
  match redisClose with
  | StepOutcome.raise => (["redis"], Except.error ())
  | StepOutcome.ok =>
    match dbDisconnect with
    | StepOutcome.raise => (["redis", "db"], Except.error ())
    | StepOutcome.ok => (["redis", "db"], Except.ok ())

/-- C5 counterexample: when the redis close raises, the exception
escapes the shutdown sequence and the database disconnect never runs,
so the claimed tolerance of individual disconnect failures is false. -/
theorem shutdown_tolerance_counterexample :
    (lifespan_shutdown StepOutcome.raise StepOutcome.ok).2 = Except.error () ∧
    ¬ ("db" ∈ (lifespan_shutdown StepOutcome.raise StepOutcome.ok).1) := by
  decide

/-- C5 amended: shutdown does disconnect in reverse registration order
— redis close is attempted first and the database disconnect only
after it — but disconnect failures are not tolerated: an exception
from either call escapes the shutdown sequence, and a redis close
failure prevents the database disconnect from running at all. -/
theorem shutdown_amended :
    ∀ r d : StepOutcome,
      lifespan_shutdown StepOutcome.ok StepOutcome.ok = (["redis", "db"], Except.ok ()) ∧
      lifespan_shutdown StepOutcome.raise d = (["redis"], Except.error ()) ∧
      lifespan_shutdown StepOutcome.ok StepOutcome.raise =
        (["redis", "db"], Except.error ()) ∧
      ((lifespan_shutdown r d).2 = Except.error () ↔
        (r = StepOutcome.raise ∨ d = StepOutcome.raise)) := by
  decide

end Dashboard

namespace Dashboard

/-- An `HTTPException` as raised by the FastAPI handlers: a status code
and a detail string. -/
structure HTTPError where
  statusCode : Nat
  detail : String
deriving DecidableEq, Repr

/-- Failure a report-status poll can raise inside the service. -/
inductive ServiceFailure where
  | notFound
deriving DecidableEq, Repr

/-- The text `str(e)` of a service failure. -/
def failureText : ServiceFailure → String
  | ServiceFailure.notFound => "NotFound"

/-- Modelled from the spec: `ReportService.get_report_status` is code of
this repository that is not under src (only `services.report_service`
is imported by main.py).  Per the spec, `getStatus(id)` "returns the
current AsyncJob snapshot or a NotFound error if the id is unknown or
past its retention window"; `table` holds the retained snapshots, ids
past the retention window having been removed by the cleanup job. -/
def report_service_get_report_status (table : List (String × String))
    (taskId : String) : Except ServiceFailure String :=
  match table.lookup taskId with
  | some snapshot => Except.ok snapshot
  | none => Except.error ServiceFailure.notFound

/-- The `get_report_status` endpoint (main.py lines 311-327): it awaits
`service.get_report_status(task_id)` inside a `try`; a successful
result is wrapped in a "success" JSON payload, and the single `except
Exception` clause converts every service failure into
`HTTPException(status_code=500, detail=str(e))`. -/
def get_report_status (table : List (String × String)) (taskId : String) :
    Except HTTPError (String × String) :=
  match report_service_get_report_status table taskId with
  | Except.ok snapshot => Except.ok ("success", snapshot)
  | Except.error e => Except.error { statusCode := 500, detail := failureText e }

/-- HTTP status code of a failed endpoint call, `none` on success. -/
def http_status {α : Type} (r : Except HTTPError α) : Option Nat :=
  match r with
  | Except.ok _ => none
  | Except.error e => some e.statusCode

/-- C6 counterexample: polling a task id that was never submitted fails
with HTTP 500, not 404 — the endpoint maps the NotFound failure of the
service to a 500 like every other failure. -/
theorem report_status_notfound_counterexample :
    http_status (get_report_status [] "missing-task") = some 500 ∧ ¬ (500 = 404) := by
  decide

/-- C6 amended: a status poll whose id is absent from the retained job
table (unknown, or removed after its retention window) fails, but with
HTTP 500 carrying the NotFound text — the handler turns every service
failure into a 500, so no 404 is ever produced. -/
theorem report_status_notfound_amended :
    ∀ (table : List (String × String)) (taskId : String),
      table.lookup taskId = none →
      get_report_status table taskId =
        Except.error { statusCode := 500, detail := failureText ServiceFailure.notFound } := by
  intro table taskId h
  simp [get_report_status, report_service_get_report_status, h]

/-- Witness for the amended C6 theorem at the empty table. -/
theorem report_status_notfound_amended_witness :
    ([] : List (String × String)).lookup "missing-task" = none ∧
    get_report_status [] "missing-task" =
      Except.error { statusCode := 500, detail := failureText ServiceFailure.notFound } :=
  ⟨rfl, report_status_notfound_amended [] "missing-task" rfl⟩

/-- The `get_analytics_service` dependency (main.py lines 142-145):
raises an `HTTPException` 503 when the global service object is still
`None`, and returns the service otherwise. -/
def get_analytics_service {α : Type} (svc : Option α) : Except HTTPError α :=
  match svc with
  | none => Except.error { statusCode := 503, detail := "Analytics service not available" }
  | some s => Except.ok s

/-- The `get_prediction_service` dependency (main.py lines 147-150). -/
def get_prediction_service {α : Type} (svc : Option α) : Except HTTPError α :=
  match svc with
  | none => Except.error { statusCode := 503, detail := "Prediction service not available" }
  | some s => Except.ok s

/-- The `get_report_service` dependency (main.py lines 152-155). -/
def get_report_service {α : Type} (svc : Option α) : Except HTTPError α :=
  match svc with
  | none => Except.error { statusCode := 503, detail := "Report service not available" }
  | some s => Except.ok s

/-- FastAPI request dispatch through a `Depends` parameter: the
dependency is resolved before the handler body, an `HTTPException`
raised by it becomes the response, and the handler body runs only on a
resolved service. -/
def endpoint_dispatch {α β : Type} (dep : Except HTTPError α)
    (handler : α → Except HTTPError β) : Except HTTPError β :=
  match dep with
  | Except.error e => Except.error e
  | Except.ok s => handler s

/-- C9: a request to an analytics, prediction, or report endpoint while
the corresponding global service object is still `None` fails with the
503 "not available" error of that dependency, for every possible
handler body — so the body is never run with a missing service. -/
theorem service_none_gives_503 :
    ∀ (α β : Type) (handler : α → Except HTTPError β),
      endpoint_dispatch (get_analytics_service (none : Option α)) handler =
        Except.error { statusCode := 503, detail := "Analytics service not available" } ∧
      endpoint_dispatch (get_prediction_service (none : Option α)) handler =
        Except.error { statusCode := 503, detail := "Prediction service not available" } ∧
      endpoint_dispatch (get_report_service (none : Option α)) handler =
        Except.error { statusCode := 503, detail := "Report service not available" } := by
  intro α β handler
  exact ⟨rfl, rfl, rfl⟩

end Dashboard

namespace Dashboard

/-- Outcome of one invocation of a background job action: it returns,
or raises with a message. -/
inductive ActionOutcome where
  | ok
  | raise : String → ActionOutcome
deriving DecidableEq, Repr

/-- Result of one loop iteration: whether control reaches the `await
asyncio.sleep` (so the loop continues), and the error logged, if any. -/
structure TickEffect where
  continues : Bool
  loggedError : Option String
deriving DecidableEq, Repr

/-- The guarded action inside the `try` of a background loop (main.py
lines 161-165 and 175-177): the service call runs only when the global
service object is set, and may raise. -/
def background_job_action (svcPresent : Bool) (outcome : ActionOutcome) :
    Except String Unit :=
  if svcPresent then
    match outcome with
    | ActionOutcome.ok => Except.ok ()
    | ActionOutcome.raise msg => Except.error msg
  else Except.ok ()

/-- One iteration of `background_model_training` or
`background_metrics_collection` (main.py lines 158-182): `try:` run the
guarded action; `except Exception as e:` log the error.  In both cases
control falls through to the `await asyncio.sleep(...)`, so the loop
continues. -/
def background_job_tick (svcPresent : Bool) (outcome : ActionOutcome) : TickEffect :=
  match background_job_action svcPresent outcome with
  | Except.ok _ => { continues := true, loggedError := none }
  | Except.error msg => { continues := true, loggedError := some msg }

/-- Whether the `while True` loop is still scheduled after `n`
iterations with the given per-tick action outcomes. -/
def jobAlive (svcPresent : Bool) (outcomes : Nat → ActionOutcome) : Nat → Bool
  | 0 => true
  | n + 1 =>
    jobAlive svcPresent outcomes n && (background_job_tick svcPresent (outcomes n)).continues

/-- The errors logged by `logger.error` during the first `n`
iterations, in order. -/
def jobLog (svcPresent : Bool) (outcomes : Nat → ActionOutcome) (n : Nat) : List String :=
  (List.range n).filterMap fun k => (background_job_tick svcPresent (outcomes k)).loggedError

/-- Start time of iteration `n` of one background loop whose sleep
interval is `interval` and whose tick `k` action takes `dur k` time:
the loop awaits the action, then sleeps, then begins the next
iteration.  Each loop is its own `asyncio.create_task` coroutine, so
under cooperative scheduling it advances on its own timeline. -/
def jobTickStart (interval : Nat) (dur : Nat → Nat) : Nat → Nat
  | 0 => 0
  | n + 1 => jobTickStart interval dur n + dur n + interval

/-- Time at which the action of iteration `n` returns. -/
def jobTickEnd (interval : Nat) (dur : Nat → Nat) (n : Nat) : Nat :=
  jobTickStart interval dur n + dur n

/-- Tick start times of `background_model_training` (24-hour sleep,
main.py line 170). -/
def background_model_training_start (dur : Nat → Nat) : Nat → Nat :=
  jobTickStart 86400 dur

/-- Tick start times of `background_metrics_collection` (5-minute
sleep, main.py line 182). -/
def background_metrics_collection_start (dur : Nat → Nat) : Nat → Nat :=
  jobTickStart 300 dur

/-- The two fire-and-forget background loops started by `lifespan`
(main.py lines 103-104), each parameterised only by its own action
durations. -/
def two_job_system (durTrain durMetrics : Nat → Nat) : (Nat → Nat) × (Nat → Nat) :=
  (background_model_training_start durTrain, background_metrics_collection_start durMetrics)

/-- Tick start times never decrease with the tick index. -/
theorem jobTickStart_mono (interval : Nat) (dur : Nat → Nat) :
    Monotone (jobTickStart interval dur) := by
  apply monotone_nat_of_le_succ
  intro n
  simp only [jobTickStart]
  omega

/-- C7: within one background loop the ticks are serialized — the
action of every earlier tick has returned before a later tick begins —
and each of the two loops is unaffected by the durations of the other
loop (its timeline is a function of its own durations only). -/
theorem periodic_no_overlap :
    (∀ (interval : Nat) (dur : Nat → Nat) (m n : Nat), m < n →
      jobTickEnd interval dur m ≤ jobTickStart interval dur n) ∧
    (∀ (durTrain durTrain2 durMetrics : Nat → Nat) (n : Nat),
      (two_job_system durTrain durMetrics).2 n = (two_job_system durTrain2 durMetrics).2 n) ∧
    (∀ (durTrain durMetrics durMetrics2 : Nat → Nat) (n : Nat),
      (two_job_system durTrain durMetrics).1 n = (two_job_system durTrain durMetrics2).1 n) := by
  refine ⟨?_, ?_, ?_⟩
  · intro interval dur m n hmn
    have h1 : jobTickEnd interval dur m ≤ jobTickStart interval dur (m + 1) := by
      simp only [jobTickEnd, jobTickStart]
      omega
    exact h1.trans (jobTickStart_mono interval dur hmn)
  · intro durTrain durTrain2 durMetrics n
    rfl
  · intro durTrain durMetrics durMetrics2 n
    rfl

/-- Witness for C7 at interval 86400, constant duration 5, ticks 0 and
2. -/
theorem periodic_no_overlap_witness :
    (0 : Nat) < 2 ∧
    jobTickEnd 86400 (fun _ => 5) 0 ≤ jobTickStart 86400 (fun _ => 5) 2 :=
  ⟨by decide, periodic_no_overlap.1 86400 (fun _ => 5) 0 2 (by decide)⟩

/-- Every tick reaches the sleep, whatever the action did. -/
theorem background_job_tick_continues (svcPresent : Bool) (outcome : ActionOutcome) :
    (background_job_tick svcPresent outcome).continues = true := by
  cases h : background_job_action svcPresent outcome <;>
    simp [background_job_tick, h]

/-- C8: for every sequence of action outcomes, the background loop is
still scheduled after every tick — an action failure never terminates
the schedule — and the error message of a raising tick is logged. -/
theorem periodic_failure_rescheduled :
    ∀ (outcomes : Nat → ActionOutcome) (n : Nat),
      jobAlive true outcomes n = true ∧
      (∀ msg : String, outcomes n = ActionOutcome.raise msg →
        msg ∈ jobLog true outcomes (n + 1)) := by
  intro outcomes n
  constructor
  · induction n with
    | zero => rfl
    | succ k ih =>
      simp [jobAlive, ih, background_job_tick_continues]
  · intro msg h
    have hlog : (background_job_tick true (outcomes n)).loggedError = some msg := by
      simp [background_job_tick, background_job_action, h]
    simp only [jobLog]
    exact List.mem_filterMap.mpr ⟨n, List.mem_range.mpr (Nat.lt_succ_self n), hlog⟩

/-- Witness for C8: a loop whose action raises "boom" on every tick is
still alive after three ticks and has logged the error. -/
theorem periodic_failure_rescheduled_witness :
    jobAlive true (fun _ => ActionOutcome.raise "boom") 3 = true ∧
    (fun _ => ActionOutcome.raise "boom") 3 = ActionOutcome.raise "boom" ∧
    "boom" ∈ jobLog true (fun _ => ActionOutcome.raise "boom") 4 :=
  ⟨(periodic_failure_rescheduled (fun _ => ActionOutcome.raise "boom") 3).1, rfl,
    (periodic_failure_rescheduled (fun _ => ActionOutcome.raise "boom") 3).2 "boom" rfl⟩

end Dashboard

namespace Dashboard

/-- Behaviour of the single HTTP GET issued by the container health
script (health_check.py lines 24-28): the request can time out, fail
with a client error, raise some other exception, or produce a response
with a status code and JSON body.  A body of `none` means
`response.json()` raises (for example on invalid JSON); `some fields`
is the parsed object restricted to its string fields. -/
inductive HttpOutcome where
  | timeout
  | clientError : String → HttpOutcome
  | otherError : String → HttpOutcome
  | response : Nat → Option (List (String × String)) → HttpOutcome
deriving DecidableEq, Repr

/-- A Python exception escaping the request code, by except clause. -/
inductive PyError where
  | timeoutError
  | clientErr : String → PyError
  | unexpected : String → PyError
deriving DecidableEq, Repr

/-- The body of the `try` in `perform_health_check` (health_check.py
lines 23-38): issue the GET (which may raise); on a 200 response parse
the JSON (which may raise) and compare `data.get("status")` with
"healthy"; any non-200 status yields False. -/
def health_check_attempt (o : HttpOutcome) : Except PyError Bool :=
  match o with
  | HttpOutcome.timeout => Except.error PyError.timeoutError
  | HttpOutcome.clientError msg => Except.error (PyError.clientErr msg)
  | HttpOutcome.otherError msg => Except.error (PyError.unexpected msg)
  | HttpOutcome.response status json =>
    if status = 200 then
      match json with
      | none => Except.error (PyError.unexpected "json decode failed")
      | some fields =>
        if fields.lookup "status" = some "healthy" then Except.ok true
        else Except.ok false
    else Except.ok false

/-- `perform_health_check` (health_check.py lines 17-48) with the raise
channel kept visible: the three except clauses (`asyncio.TimeoutError`,
`aiohttp.ClientError`, `Exception`) each print and return False, so
every exception of the attempt is converted and none is re-raised. -/
def perform_health_check_outer (o : HttpOutcome) : Except PyError Bool :=
  match health_check_attempt o with
  | Except.ok b => Except.ok b
  | Except.error _ => Except.ok false

/-- The boolean `perform_health_check` actually returns. -/
def perform_health_check (o : HttpOutcome) : Bool :=
  match perform_health_check_outer o with
  | Except.ok b => b
  | Except.error _ => false

/-- `main` (health_check.py lines 50-62): `sys.exit(0)` when the check
passed, `sys.exit(1)` otherwise. -/
def main_exit_code (o : HttpOutcome) : Nat :=
  if perform_health_check o then 0 else 1

/-- C10: the script never raises (the outer function always returns a
boolean), it returns True exactly when the response has status 200 and
its JSON body maps "status" to "healthy", and the process exit code is
0 exactly when it returns True and 1 exactly when it returns False. -/
theorem health_script_behaviour :
    ∀ o : HttpOutcome,
      perform_health_check_outer o = Except.ok (perform_health_check o) ∧
      (perform_health_check o = true ↔
        ∃ fields : List (String × String),
          o = HttpOutcome.response 200 (some fields) ∧
          fields.lookup "status" = some "healthy") ∧
      (main_exit_code o = 0 ↔ perform_health_check o = true) ∧
      (main_exit_code o = 1 ↔ perform_health_check o = false) := by
  intro o
  refine ⟨?_, ?_, ?_, ?_⟩
  · cases h : health_check_attempt o <;>
      simp [perform_health_check, perform_health_check_outer, h]
  · cases o with
    | timeout =>
      simp [perform_health_check, perform_health_check_outer, health_check_attempt]
    | clientError msg =>
      simp [perform_health_check, perform_health_check_outer, health_check_attempt]
    | otherError msg =>
      simp [perform_health_check, perform_health_check_outer, health_check_attempt]
    | response status json =>
      by_cases h200 : status = 200
      · subst h200
        cases json with
        | none =>
          simp [perform_health_check, perform_health_check_outer, health_check_attempt]
        | some fields =>
          by_cases hh : fields.lookup "status" = some "healthy"
          · simp [perform_health_check, perform_health_check_outer, health_check_attempt, hh]
          · simp [perform_health_check, perform_health_check_outer, health_check_attempt, hh]
      · simp [perform_health_check, perform_health_check_outer, health_check_attempt, h200]
  · cases hb : perform_health_check o <;> simp [main_exit_code, hb]
  · cases hb : perform_health_check o <;> simp [main_exit_code, hb]

end Dashboard
